import Mathlib

/-!
Shallow embedding of the CLIC portion of the `riscv-peripheral` crate
(`src/clic.rs` and `src/clic/interrupt.rs`), together with theorems about
its address arithmetic, enumeration conversions and register semantics.

Machine-mapped memory is modelled as a byte-addressed store `Nat → Nat`
(writes reduce the value mod 256, matching a `u8` write).  Pointer values
are natural numbers; the Rust cast `as u32` is modelled as `% 2^32`, and a
`u32` addition as wrapping addition mod `2^32` (release-mode semantics).
-/

/-- Byte-addressed memory: address to stored byte value. -/
abbrev Mem : Type := Nat → Nat

/-- Read one byte (models `Reg::<u8>::read`). -/
def readByte (m : Mem) (a : Nat) : Nat := m a

/-- Write one byte (models `Reg::<u8>::write`); a `u8` write stores the value mod 256. -/
def writeByte (m : Mem) (a v : Nat) : Mem :=
  fun x => if x = a then v % 256 else m x

/-- The all-zero memory, as in the test harness arrays `[0u32; 32]`. -/
def zeroMem : Mem := fun _ => 0

/-- Cast of a pointer-sized value to `u32` (Rust `as u32`). -/
def toU32 (x : Nat) : Nat := x % 4294967296

/-- Wrapping `u32` addition (Rust `+` on `u32`, release semantics). -/
def u32add (x y : Nat) : Nat := (x + y) % 4294967296

/-- Embeds the test enum `Interrupt` of `src/clic.rs` (`I1 = 1 .. I4 = 4`, `repr(u16)`). -/
inductive Interrupt : Type
  | I1
  | I2
  | I3
  | I4
deriving DecidableEq

/-- Embeds `Interrupt::MAX_INTERRUPT_NUMBER = 4`. -/
def Interrupt.MAX_INTERRUPT_NUMBER : Nat := 4

/-- Embeds `InterruptNumber::number` for `Interrupt` (the `u16` discriminant). -/
def Interrupt.number : Interrupt → Nat
  | .I1 => 1
  | .I2 => 2
  | .I3 => 3
  | .I4 => 4

/-- Embeds `Interrupt::from_number`: error when `number > MAX_INTERRUPT_NUMBER || number == 0`,
otherwise `transmute` to the variant with that discriminant. -/
def Interrupt.from_number (number : Nat) : Except Nat Interrupt :=
  if Interrupt.MAX_INTERRUPT_NUMBER < number ∨ number = 0 then
    Except.error number
  else if number = 1 then Except.ok Interrupt.I1
  else if number = 2 then Except.ok Interrupt.I2
  else if number = 3 then Except.ok Interrupt.I3
  else Except.ok Interrupt.I4

/-- Embeds the test enum `Priority` of `src/clic.rs` (`P0 = 0 .. P3 = 3`, `repr(u8)`). -/
inductive Priority : Type
  | P0
  | P1
  | P2
  | P3
deriving DecidableEq

/-- Embeds `Priority::MAX_PRIORITY_NUMBER = 3`. -/
def Priority.MAX_PRIORITY_NUMBER : Nat := 3

/-- Embeds `PriorityNumber::number` for `Priority` (the `u8` discriminant). -/
def Priority.number : Priority → Nat
  | .P0 => 0
  | .P1 => 1
  | .P2 => 2
  | .P3 => 3

/-- Embeds `Priority::from_number`: error when `number > MAX_PRIORITY_NUMBER`,
otherwise `transmute` to the variant with that discriminant. -/
def Priority.from_number (number : Nat) : Except Nat Priority :=
  if Priority.MAX_PRIORITY_NUMBER < number then
    Except.error number
  else if number = 0 then Except.ok Priority.P0
  else if number = 1 then Except.ok Priority.P1
  else if number = 2 then Except.ok Priority.P2
  else Except.ok Priority.P3

/-- Embeds `struct INTERRUPTS { ptr: *mut u32 }` of `src/clic/interrupt.rs`;
the pointer value is carried as a natural number. -/
structure INTERRUPTS : Type where
  ptr : Nat
deriving DecidableEq

/-- Embeds `INTERRUPTS::new(address)`. -/
def INTERRUPTS.new (address : Nat) : INTERRUPTS := ⟨address⟩

/-- Byte address used by `is_pending`, `pend` and `unpend`:
`self.ptr.offset(offset) as *mut u8` where `offset = source.number() as usize`
and `ptr : *mut u32`, i.e. the full-width address `ptr + 4 * source`
(pointer arithmetic is assumed in range, as `offset` requires). -/
def INTERRUPTS.pendLaneAddr (c : INTERRUPTS) (source : Nat) : Nat :=
  c.ptr + 4 * source

/-- Byte address used by `is_enabled`, `enable` and `disable`:
`(self.ptr.offset(offset) as u32 + 1) as *mut u8` — the word pointer is cast
down to `u32` before the lane offset 1 is added with `u32` arithmetic. -/
def INTERRUPTS.enableLaneAddr (c : INTERRUPTS) (source : Nat) : Nat :=
  u32add (toU32 (c.ptr + 4 * source)) 1

/-- Byte address used by `get_priority` and `set_priority`:
`(self.ptr.offset(offset) as u32 + 3) as *mut u8`. -/
def INTERRUPTS.prioLaneAddr (c : INTERRUPTS) (source : Nat) : Nat :=
  u32add (toU32 (c.ptr + 4 * source)) 3

/-- Embeds `INTERRUPTS::is_enabled`: reads the enable lane and compares to 1.
The `source` argument stands for `source.number() as usize`. -/
def INTERRUPTS.is_enabled (c : INTERRUPTS) (m : Mem) (source : Nat) : Bool :=
  readByte m (c.enableLaneAddr source) == 1

/-- Embeds `INTERRUPTS::enable`: writes 1 to the enable lane. -/
def INTERRUPTS.enable (c : INTERRUPTS) (m : Mem) (source : Nat) : Mem :=
  writeByte m (c.enableLaneAddr source) 1

/-- Embeds `INTERRUPTS::disable`: writes 0 to the enable lane. -/
def INTERRUPTS.disable (c : INTERRUPTS) (m : Mem) (source : Nat) : Mem :=
  writeByte m (c.enableLaneAddr source) 0

/-- Embeds `INTERRUPTS::get_priority`: reads the priority lane as a raw `u8`. -/
def INTERRUPTS.get_priority (c : INTERRUPTS) (m : Mem) (source : Nat) : Nat :=
  readByte m (c.prioLaneAddr source)

/-- Embeds `INTERRUPTS::set_priority`: writes `prio.number()` (a `u8` value,
passed here as a natural number) to the priority lane. -/
def INTERRUPTS.set_priority (c : INTERRUPTS) (m : Mem) (source prio : Nat) : Mem :=
  writeByte m (c.prioLaneAddr source) prio

/-- Embeds `INTERRUPTS::is_pending`: reads the pending lane and compares to 1. -/
def INTERRUPTS.is_pending (c : INTERRUPTS) (m : Mem) (source : Nat) : Bool :=
  readByte m (c.pendLaneAddr source) == 1

/-- Embeds `INTERRUPTS::pend`: writes 1 to the pending lane. -/
def INTERRUPTS.pend (c : INTERRUPTS) (m : Mem) (source : Nat) : Mem :=
  writeByte m (c.pendLaneAddr source) 1

/-- Embeds `INTERRUPTS::unpend`: writes 0 to the pending lane. -/
def INTERRUPTS.unpend (c : INTERRUPTS) (m : Mem) (source : Nat) : Mem :=
  writeByte m (c.pendLaneAddr source) 0

/-- Global machine state seen by the `CLIC` facade of `src/clic.rs`:
the memory-mapped register window, the `mstatus.MIE` bit and the
`mintthresh` CSR (number 0x347). -/
structure ClicState : Type where
  mem : Mem
  mie : Bool
  mintthresh : Nat

/-- Embeds `CLIC::INTERRUPTS_OFFSET = 0x1000`. -/
def CLIC.INTERRUPTS_OFFSET : Nat := 0x1000

/-- Modelled from the spec: `riscv::register::mstatus::clear_mie` (the body of
`CLIC::disable`) lives in the external `riscv` crate; per the spec it clears
the processor-global interrupt-enable state and nothing else. -/
def CLIC.disable (s : ClicState) : ClicState :=
  { s with mie := false }

/-- Modelled from the spec: `riscv::register::mstatus::set_mie` (the body of
`CLIC::enable`) lives in the external `riscv` crate; per the spec it sets
the processor-global interrupt-enable state and nothing else. -/
def CLIC.enable (s : ClicState) : ClicState :=
  { s with mie := true }

/-- Embeds `CLIC::set_threshold`: the inline `csrrw x0, 0x347, thresh`
instruction writes `thresh` to the `mintthresh` CSR (RISC-V CSR semantics;
the `usize -> isize` cast preserves the bit pattern). -/
def CLIC.set_threshold (thresh : Nat) (s : ClicState) : ClicState :=
  { s with mintthresh := thresh }

/-- Embeds `CLIC::get_threshold`: the inline `csrrs r, 0x347, x0`
instruction reads the `mintthresh` CSR without modifying it. -/
def CLIC.get_threshold (s : ClicState) : Nat :=
  s.mintthresh

/-- Embeds `CLIC::interrupts`: an `INTERRUPTS` block at `C::BASE + INTERRUPTS_OFFSET`;
the `BASE` associated constant of the `Clic` trait is passed as an argument. -/
def CLIC.interrupts (BASE : Nat) : INTERRUPTS :=
  INTERRUPTS.new (BASE + CLIC.INTERRUPTS_OFFSET)

/-- Applies a finite sequence of the facade's global gate operations
(`true` for `CLIC::enable`, `false` for `CLIC::disable`) in order. -/
def applyGateOps : List Bool → ClicState → ClicState
  | [], s => s
  | b :: ops, s => applyGateOps ops (if b then CLIC.enable s else CLIC.disable s)

/-- Helper facts about the byte store. -/
theorem readByte_writeByte_ne (m : Mem) (a v b : Nat) (h : b ≠ a) :
    readByte (writeByte m a v) b = readByte m b := by
  simp [readByte, writeByte, h]

/-- Reading back the written byte returns the value reduced mod 256. -/
theorem readByte_writeByte_same (m : Mem) (a v : Nat) :
    readByte (writeByte m a v) a = v % 256 := by
  simp [readByte, writeByte]

/-- The pending lane of any source is a different byte from the enable lane of
any source (the two differ mod 4: `base` versus `base + 1`). -/
theorem pendLaneAddr_ne_enableLaneAddr (c : INTERRUPTS) (n m : Nat) :
    c.pendLaneAddr n ≠ c.enableLaneAddr m := by
  simp only [INTERRUPTS.pendLaneAddr, INTERRUPTS.enableLaneAddr, toU32, u32add]
  omega

/-- The priority lane of any source is a different byte from the enable lane of
any source (mod 4: `base + 3` versus `base + 1`). -/
theorem prioLaneAddr_ne_enableLaneAddr (c : INTERRUPTS) (n m : Nat) :
    c.prioLaneAddr n ≠ c.enableLaneAddr m := by
  simp only [INTERRUPTS.prioLaneAddr, INTERRUPTS.enableLaneAddr, toU32, u32add]
  omega

/-- Enable lanes of distinct `u16` sources are distinct bytes: `4n` and `4m`
differ by less than `2^32`, so truncation cannot identify them. -/
theorem enableLaneAddr_ne_of_ne (c : INTERRUPTS) (n m : Nat)
    (hn : n < 65536) (hm : m < 65536) (hnm : m ≠ n) :
    c.enableLaneAddr m ≠ c.enableLaneAddr n := by
  simp only [INTERRUPTS.enableLaneAddr, toU32, u32add]
  omega

/-- Claim C3: for every valid instance `v` of the conformant interrupt-number
enumeration and every valid instance `p` of the conformant priority-number
enumeration, `from_number (v.number) = Ok v` and `from_number (p.number) = Ok p`. -/
theorem from_number_number_roundtrip :
    (∀ v : Interrupt, Interrupt.from_number v.number = Except.ok v) ∧
    (∀ p : Priority, Priority.from_number p.number = Except.ok p) := by
  constructor
  · intro v
    cases v <;> rfl
  · intro p
    cases p <;> rfl

/-- Claim C4: `Interrupt.from_number 0` errors, `Interrupt.from_number x` errors
for every `u16` value `x` above `MAX_INTERRUPT_NUMBER`, `Priority.from_number x`
errors for every `u8` value `x` above `MAX_PRIORITY_NUMBER`, and each error
carries the rejected input value unchanged. -/
theorem from_number_rejection :
    Interrupt.from_number 0 = Except.error 0 ∧
    (∀ x : Nat, x < 65536 → Interrupt.MAX_INTERRUPT_NUMBER < x →
      Interrupt.from_number x = Except.error x) ∧
    (∀ x : Nat, x < 256 → Priority.MAX_PRIORITY_NUMBER < x →
      Priority.from_number x = Except.error x) := by
  refine ⟨rfl, ?_, ?_⟩
  · intro x _ hx
    unfold Interrupt.from_number
    rw [if_pos (Or.inl hx)]
  · intro x _ hx
    unfold Priority.from_number
    rw [if_pos hx]

/-- Witness for C4 at the concrete rejected inputs 0, 5 and 4. -/
theorem from_number_rejection_witness :
    Interrupt.from_number 0 = Except.error 0 ∧
    Interrupt.from_number 5 = Except.error 5 ∧
    Priority.from_number 4 = Except.error 4 :=
  ⟨from_number_rejection.1,
   from_number_rejection.2.1 5 (by decide) (by decide),
   from_number_rejection.2.2 4 (by decide) (by decide)⟩

/-- Claim C5: `is_enabled` is true exactly when the byte in the source's enable
lane equals 1, and `is_pending` is true exactly when the byte in its pending
lane equals 1; any other stored byte value yields false. -/
theorem is_enabled_is_pending_strict_one (c : INTERRUPTS) (m : Mem) (n : Nat) :
    (c.is_enabled m n = true ↔ readByte m (c.enableLaneAddr n) = 1) ∧
    (c.is_pending m n = true ↔ readByte m (c.pendLaneAddr n) = 1) := by
  constructor <;> simp [INTERRUPTS.is_enabled, INTERRUPTS.is_pending]

/-- Witness for C5: at base 4096 and source 2, a memory holding 1 in the
enable lane reads back as enabled. -/
theorem is_enabled_is_pending_strict_one_witness :
    (INTERRUPTS.new 4096).is_enabled
      (writeByte zeroMem ((INTERRUPTS.new 4096).enableLaneAddr 2) 1) 2 = true :=
  (is_enabled_is_pending_strict_one (INTERRUPTS.new 4096)
    (writeByte zeroMem ((INTERRUPTS.new 4096).enableLaneAddr 2) 1) 2).1.mpr (by decide)

/-- Claim C7: after `set_priority n p` for any `u8` priority value `p` (the
`number()` of any conformant priority instance), `get_priority n` returns
exactly `p`. -/
theorem priority_roundtrip (c : INTERRUPTS) (m : Mem) (n p : Nat) (hp : p < 256) :
    c.get_priority (c.set_priority m n p) n = p := by
  simp [INTERRUPTS.get_priority, INTERRUPTS.set_priority, readByte, writeByte,
    Nat.mod_eq_of_lt hp]

/-- Witness for C7 at source 1 and priority value 3 on the zero memory. -/
theorem priority_roundtrip_witness :
    (INTERRUPTS.new 8192).get_priority
      ((INTERRUPTS.new 8192).set_priority zeroMem 1 3) 1 = 3 :=
  priority_roundtrip (INTERRUPTS.new 8192) zeroMem 1 3 (by decide)

/-- Claim C8: writing the global priority threshold and reading it back returns
the written value, for every representable threshold. -/
theorem threshold_pass_through (t : Nat) (s : ClicState) :
    CLIC.get_threshold (CLIC.set_threshold t s) = t := rfl

/-- Claim C9: any finite sequence of the facade's global `enable`/`disable`
operations, in any order, leaves the whole register window unchanged — in
particular every source's pending, enable and priority lane reads the same —
and also leaves the threshold unchanged; only the global `mie` state can change. -/
theorem global_gate_independence (ops : List Bool) (s : ClicState) :
    (applyGateOps ops s).mem = s.mem ∧
    (applyGateOps ops s).mintthresh = s.mintthresh ∧
    (∀ c : INTERRUPTS, ∀ n : Nat,
      c.is_pending (applyGateOps ops s).mem n = c.is_pending s.mem n ∧
      c.is_enabled (applyGateOps ops s).mem n = c.is_enabled s.mem n ∧
      c.get_priority (applyGateOps ops s).mem n = c.get_priority s.mem n) := by
  have key : ∀ ops : List Bool, ∀ s : ClicState,
      (applyGateOps ops s).mem = s.mem ∧
      (applyGateOps ops s).mintthresh = s.mintthresh := by
    intro ops
    induction ops with
    | nil => intro s; exact ⟨rfl, rfl⟩
    | cons b ops ih =>
      intro s
      cases b <;>
        simpa [applyGateOps, CLIC.enable, CLIC.disable] using ih _
  refine ⟨(key ops s).1, (key ops s).2, ?_⟩
  intro c n
  rw [(key ops s).1]
  exact ⟨rfl, rfl, rfl⟩

/-- Claim C10: the facade's `interrupts()` returns a block at
`BASE + INTERRUPTS_OFFSET`, the offset constant is `0x1000`, and in particular
base `0x1000` gives block address `0x2000`. -/
theorem interrupts_block_address (BASE : Nat) :
    (CLIC.interrupts BASE).ptr = BASE + CLIC.INTERRUPTS_OFFSET ∧
    CLIC.INTERRUPTS_OFFSET = 0x1000 ∧
    (CLIC.interrupts 0x1000).ptr = 0x2000 :=
  ⟨rfl, rfl, rfl⟩

/-- Claim C1 (amended): provided `block-base + 4n + 3 < 2^32` (so the 32-bit
truncation in the enable- and priority-lane computations is the identity),
every per-source operation accesses exactly the byte at `base + 4n + lane`,
with lane 0 for `is_pending`/`pend`/`unpend`, 1 for `is_enabled`/`enable`/`disable`
and 3 for `get_priority`/`set_priority`; the pending-lane address needs no proviso. -/
theorem lane_addresses_of_in_range_base (c : INTERRUPTS) (n : Nat)
    (h : c.ptr + 4 * n + 3 < 4294967296) :
    c.pendLaneAddr n = c.ptr + 4 * n ∧
    c.enableLaneAddr n = c.ptr + 4 * n + 1 ∧
    c.prioLaneAddr n = c.ptr + 4 * n + 3 ∧
    (∀ m : Mem, c.is_pending m n = (readByte m (c.ptr + 4 * n) == 1)) ∧
    (∀ m : Mem, c.pend m n = writeByte m (c.ptr + 4 * n) 1) ∧
    (∀ m : Mem, c.unpend m n = writeByte m (c.ptr + 4 * n) 0) ∧
    (∀ m : Mem, c.is_enabled m n = (readByte m (c.ptr + 4 * n + 1) == 1)) ∧
    (∀ m : Mem, c.enable m n = writeByte m (c.ptr + 4 * n + 1) 1) ∧
    (∀ m : Mem, c.disable m n = writeByte m (c.ptr + 4 * n + 1) 0) ∧
    (∀ m : Mem, c.get_priority m n = readByte m (c.ptr + 4 * n + 3)) ∧
    (∀ m : Mem, ∀ p : Nat, c.set_priority m n p = writeByte m (c.ptr + 4 * n + 3) p) := by
  have he : c.enableLaneAddr n = c.ptr + 4 * n + 1 := by
    simp only [INTERRUPTS.enableLaneAddr, toU32, u32add]
    omega
  have hq : c.prioLaneAddr n = c.ptr + 4 * n + 3 := by
    simp only [INTERRUPTS.prioLaneAddr, toU32, u32add]
    omega
  refine ⟨rfl, he, hq, fun m => rfl, fun m => rfl, fun m => rfl, ?_, ?_, ?_, ?_, ?_⟩
  · intro m
    rw [INTERRUPTS.is_enabled, he]
  · intro m
    rw [INTERRUPTS.enable, he]
  · intro m
    rw [INTERRUPTS.disable, he]
  · intro m
    rw [INTERRUPTS.get_priority, hq]
  · intro m p
    rw [INTERRUPTS.set_priority, hq]

/-- Witness for the amended C1 at base 8192 and source 1. -/
theorem lane_addresses_of_in_range_base_witness :
    (INTERRUPTS.new 8192).enableLaneAddr 1 = 8192 + 4 * 1 + 1 :=
  (lane_addresses_of_in_range_base (INTERRUPTS.new 8192) 1 (by decide)).2.1

/-- Counterexample to C1 as stated: with block base `2^32` and source 1 the
enable-lane operations do not access byte `base + 4·1 + 1`; a memory holding 1
in that byte still reads back as not enabled, because the truncated address 5
is accessed instead. -/
theorem lane_address_truncation_refutation :
    (INTERRUPTS.new 4294967296).enableLaneAddr 1 ≠ 4294967296 + 4 * 1 + 1 ∧
    readByte (writeByte zeroMem (4294967296 + 4 * 1 + 1) 1) (4294967296 + 4 * 1 + 1) = 1 ∧
    (INTERRUPTS.new 4294967296).is_enabled
      (writeByte zeroMem (4294967296 + 4 * 1 + 1) 1) 1 = false := by
  refine ⟨by decide, rfl, ?_⟩
  rfl

/-- Claim C2 (amended): the enable- and priority-lane operations access the byte
at `(((base + 4n) mod 2^32) + lane) mod 2^32` — the lane addition is itself
32-bit wrapping — which differs from the full-width `base + 4n + lane` whenever
the base lies at or above `2^32`; the pending-lane operations do not truncate
and access the full-width `base + 4n`. -/
theorem lane_addresses_truncated (c : INTERRUPTS) (n : Nat) :
    c.enableLaneAddr n = ((c.ptr + 4 * n) % 4294967296 + 1) % 4294967296 ∧
    c.prioLaneAddr n = ((c.ptr + 4 * n) % 4294967296 + 3) % 4294967296 ∧
    c.pendLaneAddr n = c.ptr + 4 * n ∧
    (4294967296 ≤ c.ptr →
      c.enableLaneAddr n ≠ c.ptr + 4 * n + 1 ∧ c.prioLaneAddr n ≠ c.ptr + 4 * n + 3) ∧
    (∀ m : Mem, c.is_enabled m n =
      (readByte m (((c.ptr + 4 * n) % 4294967296 + 1) % 4294967296) == 1)) ∧
    (∀ m : Mem, c.enable m n =
      writeByte m (((c.ptr + 4 * n) % 4294967296 + 1) % 4294967296) 1) ∧
    (∀ m : Mem, c.disable m n =
      writeByte m (((c.ptr + 4 * n) % 4294967296 + 1) % 4294967296) 0) ∧
    (∀ m : Mem, c.get_priority m n =
      readByte m (((c.ptr + 4 * n) % 4294967296 + 3) % 4294967296)) ∧
    (∀ m : Mem, ∀ p : Nat, c.set_priority m n p =
      writeByte m (((c.ptr + 4 * n) % 4294967296 + 3) % 4294967296) p) ∧
    (∀ m : Mem, c.is_pending m n = (readByte m (c.ptr + 4 * n) == 1)) ∧
    (∀ m : Mem, c.pend m n = writeByte m (c.ptr + 4 * n) 1) ∧
    (∀ m : Mem, c.unpend m n = writeByte m (c.ptr + 4 * n) 0) := by
  refine ⟨rfl, rfl, rfl, ?_, fun m => rfl, fun m => rfl, fun m => rfl, fun m => rfl,
    fun m p => rfl, fun m => rfl, fun m => rfl, fun m => rfl⟩
  intro hbig
  constructor
  · simp only [INTERRUPTS.enableLaneAddr, toU32, u32add]
    omega
  · simp only [INTERRUPTS.prioLaneAddr, toU32, u32add]
    omega

/-- Witness for the amended C2 at base `2^32` and source 1, discharging the
large-base hypothesis of the divergence clause. -/
theorem lane_addresses_truncated_witness :
    (INTERRUPTS.new 4294967296).pendLaneAddr 1 = 4294967296 + 4 * 1 ∧
    (INTERRUPTS.new 4294967296).prioLaneAddr 1 ≠ 4294967296 + 4 * 1 + 3 :=
  ⟨(lane_addresses_truncated (INTERRUPTS.new 4294967296) 1).2.2.1,
   ((lane_addresses_truncated (INTERRUPTS.new 4294967296) 1).2.2.2.1 (by decide)).2⟩

/-- Counterexample to C2 as stated: with base `2^32 - 5` and source 1 the
claimed address `((base + 4·1) mod 2^32) + 1 = 2^32` is not the byte accessed —
the 32-bit lane addition wraps to 0, so a memory holding 1 at the claimed
address still reads back as not enabled. -/
theorem enable_lane_outer_wrap_refutation :
    (INTERRUPTS.new 4294967291).enableLaneAddr 1 = 0 ∧
    (4294967291 + 4 * 1) % 4294967296 + 1 = 4294967296 ∧
    readByte (writeByte zeroMem ((4294967291 + 4 * 1) % 4294967296 + 1) 1)
      ((4294967291 + 4 * 1) % 4294967296 + 1) = 1 ∧
    (INTERRUPTS.new 4294967291).is_enabled
      (writeByte zeroMem ((4294967291 + 4 * 1) % 4294967296 + 1) 1) 1 = false := by
  exact ⟨by decide, by decide, rfl, rfl⟩

/-- Claim C6: `enable n` and `disable n` change neither the pending nor the
priority lane of `n`, nor any lane of any other `u16` source `m ≠ n`. -/
theorem enable_disable_lane_independence (c : INTERRUPTS) (mem : Mem) (n m : Nat)
    (hn : n < 65536) (hm : m < 65536) (hmn : m ≠ n) :
    c.is_pending (c.enable mem n) n = c.is_pending mem n ∧
    c.get_priority (c.enable mem n) n = c.get_priority mem n ∧
    c.is_pending (c.disable mem n) n = c.is_pending mem n ∧
    c.get_priority (c.disable mem n) n = c.get_priority mem n ∧
    c.is_pending (c.enable mem n) m = c.is_pending mem m ∧
    c.is_enabled (c.enable mem n) m = c.is_enabled mem m ∧
    c.get_priority (c.enable mem n) m = c.get_priority mem m ∧
    c.is_pending (c.disable mem n) m = c.is_pending mem m ∧
    c.is_enabled (c.disable mem n) m = c.is_enabled mem m ∧
    c.get_priority (c.disable mem n) m = c.get_priority mem m := by
  have hp : ∀ k : Nat, c.pendLaneAddr k ≠ c.enableLaneAddr n :=
    fun k => pendLaneAddr_ne_enableLaneAddr c k n
  have hq : ∀ k : Nat, c.prioLaneAddr k ≠ c.enableLaneAddr n :=
    fun k => prioLaneAddr_ne_enableLaneAddr c k n
  have hee : c.enableLaneAddr m ≠ c.enableLaneAddr n :=
    enableLaneAddr_ne_of_ne c n m hn hm hmn
  refine ⟨?_, ?_, ?_, ?_, ?_, ?_, ?_, ?_, ?_, ?_⟩ <;>
    simp only [INTERRUPTS.is_pending, INTERRUPTS.is_enabled, INTERRUPTS.get_priority,
      INTERRUPTS.enable, INTERRUPTS.disable]
  · rw [readByte_writeByte_ne _ _ _ _ (hp n)]
  · rw [readByte_writeByte_ne _ _ _ _ (hq n)]
  · rw [readByte_writeByte_ne _ _ _ _ (hp n)]
  · rw [readByte_writeByte_ne _ _ _ _ (hq n)]
  · rw [readByte_writeByte_ne _ _ _ _ (hp m)]
  · rw [readByte_writeByte_ne _ _ _ _ hee]
  · rw [readByte_writeByte_ne _ _ _ _ (hq m)]
  · rw [readByte_writeByte_ne _ _ _ _ (hp m)]
  · rw [readByte_writeByte_ne _ _ _ _ hee]
  · rw [readByte_writeByte_ne _ _ _ _ (hq m)]

/-- Witness for C6 at base 4096, sources 1 and 2, on the zero memory. -/
theorem enable_disable_lane_independence_witness :
    (INTERRUPTS.new 4096).is_pending ((INTERRUPTS.new 4096).enable zeroMem 1) 1 =
      (INTERRUPTS.new 4096).is_pending zeroMem 1 :=
  (enable_disable_lane_independence (INTERRUPTS.new 4096) zeroMem 1 2
    (by decide) (by decide) (by decide)).1
